import Mathlib

/-!
# Shallow embedding of `sawari-Scrape`'s `SeleniumMiddleware` (middlewares.py)

The repository's concurrency core is `SeleniumMiddleware` in
`src/sawari-expert/middlewares.py`.  It keeps four module-level globals:

* `_GLOBAL_DRIVER`   — the one Selenium driver object per process (or `None`)
* `_GLOBAL_TAB_POOL` — a thread-safe `Queue` of tab (window) handles (or `None`)
* `_GLOBAL_MAX_TABS` — the configured tab count (or `None`)
* `_GLOBAL_LOCK` / `_GLOBAL_INSTANCE_LOCK` — two module-level locks.

`SeleniumMiddleware.__init__` (the spec's `acquire_or_create`) runs under
`_GLOBAL_LOCK`: if `_GLOBAL_DRIVER is not None` it copies the three globals
into the instance and returns; otherwise it launches a driver, opens
`max_tabs - 1` extra tabs, fills the queue with the window handles, and
publishes everything into the globals.

`process_request` (the spec's `dispatch`) does `tab_pool.get()`, then inside
`try:`/`finally:` switches to the tab, navigates, captures page source and
current URL under `_GLOBAL_INSTANCE_LOCK`, builds an `HtmlResponse` whose
`meta` holds the driver and the tab handle, and in `finally:` puts the tab
handle back onto the queue.

`spider_closed` (the spec's `release`) runs under `_GLOBAL_LOCK`: if
`_GLOBAL_DRIVER is not None` it calls `.quit()` and resets the three
globals to `None`; otherwise it only logs.

The embedding below mirrors this.  Python object aliasing matters (after
`spider_closed` an instance still holds references to the old driver and the
old queue), so sessions live in a heap (`ProcState.heap`, indexed by
creation order) and both the globals and the middleware instances hold
indices into that heap.  The Selenium driver is the external collaborator;
it is modelled by the operations the code uses (enumerate window handles,
open a tab, switch, navigate, read page source / current URL, quit), each
recording itself in a command log and failing with `invalidSession` when
issued on a driver that has been quit.  External nondeterminism (a
navigation or switch that fails on a live driver) is injected through `Env`.

Because `__init__` and `spider_closed` bodies run entirely under the single
`_GLOBAL_LOCK`, any concurrent execution of them is equivalent to some
serial order; they are therefore modelled as atomic state transformers.
The pool's `get`/`put` are individually atomic (`queue.Queue` is
thread-safe) but a dispatch is not atomic as a whole, so the concurrency
claims about dispatch are settled over an interleaving step relation
(`DStep`) whose two events are exactly the `tab_pool.get()` of line 243 and
the `tab_pool.put(tab_handle)` of line 272.
-/

/-- Tab (window) handles.  Selenium hands out opaque strings; the model
issues them from a fresh-name counter, so `Nat`. -/
abbrev Handle := Nat

/-- The driver commands the middleware issues (the external collaborator's
API surface actually used by `middlewares.py`). -/
inductive DriverCmd where
  | openTab
  | switchTo (h : Handle)
  | navigate (url : String)
  | pageSource
  | currentUrl
  | quit
  deriving DecidableEq, Repr

/-- Errors a driver command can produce. -/
inductive DriverError where
  /-- The command was issued on a driver that has been `.quit()`. -/
  | invalidSession
  /-- `switch_to.window` on a handle the driver does not know. -/
  | noSuchWindow
  /-- An externally-caused WebDriver failure on a live driver (injected
  through `Env`): failed switch, failed navigation, failed capture. -/
  | webDriverFailure
  deriving DecidableEq, Repr

/-- The Selenium driver object, modelled by the state the middleware's
commands observe and mutate.  `log` records every command *attempted* on
this object, including commands attempted after `quit` (those fail, but the
attempt still reaches the driver object — this distinguishes "failed fast
without touching the driver" from "tried to use the invalid handle"). -/
structure Driver where
  /-- `driver.window_handles`, in creation order (initial tab first). -/
  handles : List Handle
  /-- `driver.current_window_handle`. -/
  current : Handle
  /-- `driver.current_url` of the active context. -/
  currentUrl : String
  /-- `driver.page_source` of the active context. -/
  page : String
  /-- Fresh-handle counter for newly opened tabs. -/
  nextH : Nat
  /-- Set by `quit()`: the underlying driver process has terminated. -/
  closed : Bool
  /-- Every command attempted on this driver object, in order. -/
  log : List DriverCmd
  deriving DecidableEq, Repr

/-- A freshly launched driver: one open tab (handle `0`), which is the
current window. -/
def Driver.launch : Driver :=
  { handles := [0], current := 0, currentUrl := "about:blank",
    page := "", nextH := 1, closed := false, log := [] }

/-- `driver.execute_script("window.open('', '_blank');")`: opens one new tab
with a fresh handle, appended to `window_handles`. -/
def Driver.openTab (d : Driver) : Driver :=
  let d1 := { d with log := d.log ++ [DriverCmd.openTab] }
  if d1.closed then d1
  else { d1 with handles := d1.handles ++ [d1.nextH], nextH := d1.nextH + 1 }

/-- External nondeterminism injected into one dispatch: whether the switch,
the navigation, or the capture fails on a live driver, and what the page
load yields when it succeeds. -/
structure Env where
  switchFails : Bool
  navFails : Bool
  captureFails : Bool
  loadedUrl : String
  loadedPage : String
  deriving DecidableEq, Repr

/-- An `Env` in which every driver command on a live driver succeeds. -/
def Env.ok : Env :=
  { switchFails := false, navFails := false, captureFails := false,
    loadedUrl := "http://example.com/", loadedPage := "<html></html>" }

/-- `driver.switch_to.window(h)`. -/
def Driver.doSwitch (env : Env) (d : Driver) (h : Handle) :
    Driver × Option DriverError :=
  let d1 := { d with log := d.log ++ [DriverCmd.switchTo h] }
  if d1.closed then (d1, some DriverError.invalidSession)
  else if h ∈ d1.handles then
    if env.switchFails then (d1, some DriverError.webDriverFailure)
    else ({ d1 with current := h }, none)
  else (d1, some DriverError.noSuchWindow)

/-- `driver.get(url)`. -/
def Driver.doGet (env : Env) (d : Driver) (url : String) :
    Driver × Option DriverError :=
  let d1 := { d with log := d.log ++ [DriverCmd.navigate url] }
  if d1.closed then (d1, some DriverError.invalidSession)
  else if env.navFails then (d1, some DriverError.webDriverFailure)
  else ({ d1 with currentUrl := env.loadedUrl, page := env.loadedPage }, none)

/-- `driver.page_source`. -/
def Driver.doPageSource (env : Env) (d : Driver) :
    Driver × Option DriverError × String :=
  let d1 := { d with log := d.log ++ [DriverCmd.pageSource] }
  if d1.closed then (d1, some DriverError.invalidSession, "")
  else if env.captureFails then (d1, some DriverError.webDriverFailure, "")
  else (d1, none, d1.page)

/-- `driver.current_url`. -/
def Driver.doCurrentUrl (d : Driver) : Driver × Option DriverError × String :=
  let d1 := { d with log := d.log ++ [DriverCmd.currentUrl] }
  if d1.closed then (d1, some DriverError.invalidSession, "")
  else (d1, none, d1.currentUrl)

/-- `driver.quit()`. -/
def Driver.doQuit (d : Driver) : Driver :=
  { d with log := d.log ++ [DriverCmd.quit], closed := true }

/-- One BrowserSession: the driver object together with the `Queue` of
available tab handles built next to it (lines 144–165).  The queue is a
FIFO list: `get` takes the head, `put` appends. -/
structure Session where
  driver : Driver
  pool : List Handle
  maxTabs : Nat
  deriving DecidableEq, Repr

/-- The create branch of `SeleniumMiddleware.__init__` (lines 100–165),
with the driver launch abstracted to `Driver.launch`:

1. `tab_pool = Queue()`; `main_tab = driver.current_window_handle`;
   `tab_pool.put(main_tab)`;
2. `for i in range(max_tabs - 1): execute_script("window.open...")`;
3. `all_tabs = driver.window_handles`;
   `for tab in all_tabs[1:]: tab_pool.put(tab)`. -/
def createSession (maxTabs : Nat) : Session :=
  let d0 := Driver.launch
  let mainTab := d0.current
  let pool0 : List Handle := [mainTab]
  let d1 := (Driver.openTab)^[maxTabs - 1] d0
  let allTabs := d1.handles
  let pool1 := pool0 ++ allTabs.drop 1
  { driver := d1, pool := pool1, maxTabs := maxTabs }

/-- The process-wide module state: the heap of every session object ever
created in this process (index = creation order; Python objects survive as
long as something references them), plus the three globals.  `gDriver` and
`gPool` hold the heap index of the session whose driver / queue object they
reference, or `none` for Python `None`. -/
structure ProcState where
  heap : List Session
  gDriver : Option Nat
  gPool : Option Nat
  gMaxTabs : Option Nat
  deriving DecidableEq, Repr

/-- Fresh process: no session ever created, all globals `None`. -/
def ProcState.init : ProcState :=
  { heap := [], gDriver := none, gPool := none, gMaxTabs := none }

/-- A `SeleniumMiddleware` instance: its `self.driver`, `self.tab_pool`,
`self.max_tabs`, `self.lock` fields.  `driver` and `tabPool` are heap
indices of the referenced objects (`tabPool = none` models a Python `None`
reference); `lock` identifies which lock object `self.lock` is — the code
only ever assigns the module-level `_GLOBAL_INSTANCE_LOCK`, identified
as `0`. -/
structure Middleware where
  driver : Nat
  tabPool : Option Nat
  maxTabs : Option Nat
  lock : Nat
  deriving DecidableEq, Repr

/-- Identity of the module-level `_GLOBAL_INSTANCE_LOCK` object. -/
def GLOBAL_INSTANCE_LOCK : Nat := 0

/-- Replace the session at heap index `i`. -/
def ProcState.setSession (st : ProcState) (i : Nat) (s : Session) : ProcState :=
  { st with heap := st.heap.set i s }

/-- Update the driver object of the session at heap index `i`. -/
def ProcState.setDriver (st : ProcState) (i : Nat) (d : Driver) : ProcState :=
  match st.heap[i]? with
  | none => st
  | some s => st.setSession i { s with driver := d }

/-- Update the pool (queue contents) of the session at heap index `i`. -/
def ProcState.setPool (st : ProcState) (i : Nat) (p : List Handle) : ProcState :=
  match st.heap[i]? with
  | none => st
  | some s => st.setSession i { s with pool := p }

/-- `SeleniumMiddleware.__init__(browser, max_tabs)` — the spec's
`acquire_or_create`.  The whole body runs under `_GLOBAL_LOCK`, so it is one
atomic transformer.  Reuse branch (lines 86–98): copy the globals into the
instance.  Create branch (lines 100–165): build a session (the `browser`
argument selects Chrome vs Firefox option plumbing, which is invisible at
this abstraction) and publish it in the globals. -/
def acquireOrCreate (browser : String) (maxTabs : Nat) (st : ProcState) :
    Middleware × ProcState :=
  match st.gDriver with
  | some sid =>
      (⟨sid, st.gPool, st.gMaxTabs, GLOBAL_INSTANCE_LOCK⟩, st)
  | none =>
      let _ := browser
      let s := createSession maxTabs
      let sid := st.heap.length
      (⟨sid, some sid, some maxTabs, GLOBAL_INSTANCE_LOCK⟩,
       { heap := st.heap ++ [s], gDriver := some sid, gPool := some sid,
         gMaxTabs := some maxTabs })

/-- `SeleniumMiddleware.spider_closed()` — the spec's `release`.  Runs under
`_GLOBAL_LOCK`.  If `_GLOBAL_DRIVER is not None`: `quit()` it and reset the
three globals to `None`; otherwise log and do nothing. -/
def spiderClosed (st : ProcState) : ProcState :=
  match st.gDriver with
  | none => st
  | some sid =>
      let st1 :=
        match st.heap[sid]? with
        | none => st
        | some s => st.setSession sid { s with driver := s.driver.doQuit }
      { st1 with gDriver := none, gPool := none, gMaxTabs := none }

/-- The value produced by one `process_request` call. -/
inductive PRResult where
  /-- The `HtmlResponse`: resolved URL, body, `meta['driver']` (heap index
  of the driver object) and `meta['tab_handle']`. -/
  | response (url : String) (body : String) (metaDriver : Nat)
      (metaTabHandle : Handle)
  /-- A raised exception carrying a driver error (propagates to the caller
  after the `finally:` block runs). -/
  | raised (e : DriverError)
  /-- `tab_pool.get()` found the queue empty: the call blocks and never
  completes (no state change observable). -/
  | blocked
  /-- `self.tab_pool` is `None`: Python `AttributeError` before any tab is
  taken. -/
  | noPool
  deriving DecidableEq, Repr

/-- The `try:` body of `process_request` (lines 245–268): under
`self.lock`, switch to the acquired tab, navigate, capture page source and
current URL, then build the `HtmlResponse` and tag its `meta` with the
driver and the tab handle.  `didx` is the heap index of `self.driver`. -/
def trySection (env : Env) (didx : Nat) (tab : Handle) (url : String)
    (st : ProcState) : PRResult × ProcState :=
  match st.heap[didx]? with
  | none => (PRResult.raised DriverError.invalidSession, st)
  | some dsess =>
    let (d1, e1) := dsess.driver.doSwitch env tab
    match e1 with
    | some e => (PRResult.raised e, st.setDriver didx d1)
    | none =>
      let (d2, e2) := d1.doGet env url
      match e2 with
      | some e => (PRResult.raised e, st.setDriver didx d2)
      | none =>
        let (d3, e3, body) := d2.doPageSource env
        match e3 with
        | some e => (PRResult.raised e, st.setDriver didx d3)
        | none =>
          let (d4, e4, curUrl) := d3.doCurrentUrl
          match e4 with
          | some e => (PRResult.raised e, st.setDriver didx d4)
          | none =>
            (PRResult.response curUrl body didx tab, st.setDriver didx d4)

/-- `SeleniumMiddleware.process_request(request, spider)` — the spec's
`dispatch` — run to completion in isolation (the interleaved view of its
two pool operations is `DStep` below).  Mirrors lines 237–272:
`tab_handle = self.tab_pool.get()`, then the `try:` body (`trySection`);
`finally:` `self.tab_pool.put(tab_handle)` runs on every exit path before
the call completes. -/
def processRequest (env : Env) (m : Middleware) (url : String)
    (st : ProcState) : PRResult × ProcState :=
  match m.tabPool with
  | none => (PRResult.noPool, st)
  | some pid =>
    match st.heap[pid]? with
    | none => (PRResult.noPool, st)
    | some psess =>
      match psess.pool with
      | [] => (PRResult.blocked, st)
      | tab :: rest =>
        -- tab_handle = self.tab_pool.get()
        let st1 := st.setPool pid rest
        -- try: ... (trySection)
        let (res, st2) := trySection env m.driver tab url st1
        -- finally: self.tab_pool.put(tab_handle)
        let poolNow := match st2.heap[pid]? with
          | none => []
          | some s => s.pool
        (res, st2.setPool pid (poolNow ++ [tab]))

/-! ## Interleaved view of the pool operations

`queue.Queue` is thread-safe, so `tab_pool.get()` (line 243) and
`tab_pool.put(tab_handle)` (line 272) are individually atomic, while the
dispatch between them is not.  A concurrent execution of `process_request`
calls is therefore, as far as the pool is concerned, an arbitrary
interleaving of atomic acquire and release events.  `DispatchState` is the
pool plus the ledger of in-flight requests and the tab each one's local
`tab_handle` variable holds; `DStep` has exactly the two events the code
performs:

* `acquire r`: request `r` (not already holding a tab — each
  `process_request` call does a single `get()`) dequeues the queue's head;
* `release r`: request `r` appends the tab its local `tab_handle` holds —
  exactly the tab it acquired — back onto the queue and leaves the ledger.
-/

/-- Pool-level state of a session under concurrent dispatch: the queue
contents and the (request, tab-handle) pairs currently checked out. -/
structure DispatchState where
  pool : List Handle
  checkedOut : List (Nat × Handle)
  deriving DecidableEq, Repr

/-- One atomic pool event of `process_request`. -/
inductive DStep : DispatchState → DispatchState → Prop where
  /-- Line 243, `tab_handle = self.tab_pool.get()`: dequeues the head. -/
  | acquire (s : DispatchState) (r : Nat) (tab : Handle) (rest : List Handle)
      (hpool : s.pool = tab :: rest)
      (hr : ∀ h, (r, h) ∉ s.checkedOut) :
      DStep s ⟨rest, s.checkedOut ++ [(r, tab)]⟩
  /-- Line 272, `self.tab_pool.put(tab_handle)`: request `r` returns the
  tab it holds. -/
  | release (s : DispatchState) (r : Nat) (tab : Handle)
      (l1 l2 : List (Nat × Handle))
      (hco : s.checkedOut = l1 ++ (r, tab) :: l2) :
      DStep s ⟨s.pool ++ [tab], l1 ++ l2⟩

/-- States reachable by valid acquire/release interleavings from a freshly
constructed session with tab count `N` (its queue as built by
`SeleniumMiddleware.__init__`, nothing checked out). -/
inductive DReach (N : Nat) : DispatchState → Prop where
  | init : DReach N ⟨(createSession N).pool, []⟩
  | step {s s' : DispatchState} : DReach N s → DStep s s' → DReach N s'

/-! ## Helper lemmas (shared) -/

/-- Opening `k` tabs on a freshly launched driver yields window handles
`0, 1, …, k` with the initial tab still current. -/
theorem openTab_iter_launch (k : Nat) :
    (Driver.openTab)^[k] Driver.launch =
      { handles := List.range (k + 1), current := 0,
        currentUrl := "about:blank", page := "", nextH := k + 1,
        closed := false, log := List.replicate k DriverCmd.openTab } := by
  induction k with
  | zero => simp [Driver.launch, List.range_succ]
  | succ n ih =>
      rw [Function.iterate_succ_apply', ih]
      simp [Driver.openTab, List.range_succ, List.replicate_succ']

/-- For a configured tab count of at least 1, the queue built by the create
branch holds exactly the handles `0, …, n-1` in order. -/
theorem createSession_pool (n : Nat) (h : 1 ≤ n) :
    (createSession n).pool = List.range n := by
  obtain ⟨m, rfl⟩ : ∃ m, n = m + 1 := ⟨n - 1, by omega⟩
  have hc : Driver.launch.current = 0 := rfl
  simp only [createSession, Nat.add_sub_cancel, openTab_iter_launch, hc]
  rw [List.range_succ_eq_map]
  simp

theorem heap_get_setDriver (st : ProcState) (i j : Nat) (d : Driver) :
    ((st.setDriver i d).heap[j]?).map Session.pool =
      (st.heap[j]?).map Session.pool := by
  unfold ProcState.setDriver ProcState.setSession
  cases hi : st.heap[i]? with
  | none => rfl
  | some s =>
      dsimp only
      by_cases hji : i = j
      · subst hji
        have hlen : i < st.heap.length := (List.getElem?_eq_some.mp hi).1
        rw [List.getElem?_set_eq_of_lt _ hlen, hi]
        rfl
      · rw [List.getElem?_set_ne hji]

theorem heap_get_setPool (st : ProcState) (i : Nat) (p : List Handle)
    (s : Session) (hi : st.heap[i]? = some s) :
    (st.setPool i p).heap[i]? = some { s with pool := p } := by
  unfold ProcState.setPool ProcState.setSession
  rw [hi]
  have hlen : i < st.heap.length := (List.getElem?_eq_some.mp hi).1
  exact List.getElem?_set_eq_of_lt _ hlen

theorem heap_get_setPool_ne (st : ProcState) (i j : Nat) (p : List Handle)
    (hji : i ≠ j) :
    (st.setPool i p).heap[j]? = st.heap[j]? := by
  unfold ProcState.setPool ProcState.setSession
  cases st.heap[i]? with
  | none => rfl
  | some s => exact List.getElem?_set_ne hji

/-- The `try:` body only touches the driver object: the pool contents of
every session in the heap are unchanged. -/
theorem trySection_pool (env : Env) (didx : Nat) (tab : Handle)
    (url : String) (st : ProcState) (j : Nat) :
    (((trySection env didx tab url st).2).heap[j]?).map Session.pool =
      (st.heap[j]?).map Session.pool := by
  unfold trySection
  cases hd : st.heap[didx]? with
  | none => rfl
  | some dsess =>
      dsimp only
      repeat' split
      all_goals first
        | rfl
        | exact heap_get_setDriver st didx j _

theorem heap_driver_setPool (st : ProcState) (i : Nat) (p : List Handle)
    (j : Nat) :
    ((st.setPool i p).heap[j]?).map Session.driver =
      (st.heap[j]?).map Session.driver := by
  unfold ProcState.setPool ProcState.setSession
  cases hi : st.heap[i]? with
  | none => rfl
  | some s =>
      dsimp only
      by_cases hji : i = j
      · subst hji
        have hlen : i < st.heap.length := (List.getElem?_eq_some.mp hi).1
        rw [List.getElem?_set_eq_of_lt _ hlen, hi]
        rfl
      · rw [List.getElem?_set_ne hji]

theorem heap_get_setDriver_self (st : ProcState) (i : Nat) (d : Driver)
    (s : Session) (hi : st.heap[i]? = some s) :
    (st.setDriver i d).heap[i]? = some { s with driver := d } := by
  unfold ProcState.setDriver ProcState.setSession
  rw [hi]
  have hlen : i < st.heap.length := (List.getElem?_eq_some.mp hi).1
  exact List.getElem?_set_eq_of_lt _ hlen

/-- Unfolding `process_request` once the pool is known to be non-empty:
the result is the `try:` body's result, and the pool ends as `rest`
with the dequeued tab appended by the `finally:` block. -/
theorem processRequest_eq (env : Env) (m : Middleware) (url : String)
    (st : ProcState) (pid : Nat) (psess : Session) (tab : Handle)
    (rest : List Handle) (hp : m.tabPool = some pid)
    (hs : st.heap[pid]? = some psess) (hpool : psess.pool = tab :: rest) :
    processRequest env m url st =
      ((trySection env m.driver tab url (st.setPool pid rest)).1,
       (trySection env m.driver tab url (st.setPool pid rest)).2.setPool pid
         (rest ++ [tab])) := by
  have h1 : (st.setPool pid rest).heap[pid]? =
      some { psess with pool := rest } := heap_get_setPool st pid rest psess hs
  have h2 := trySection_pool env m.driver tab url (st.setPool pid rest) pid
  rw [h1] at h2
  simp only [processRequest, hp, hs, hpool]
  cases hts : trySection env m.driver tab url (st.setPool pid rest) with
  | mk res st2 =>
      rw [hts] at h2
      dsimp only at h2 ⊢
      cases hs2 : st2.heap[pid]? with
      | none => rw [hs2] at h2; simp at h2
      | some s2 =>
          rw [hs2] at h2
          simp only [Option.map_some'] at h2
          dsimp only
          rw [Option.some_inj.mp h2]

/-- The `finally:` put runs on every exit path: whatever the `try:` body
did (success, switch failure, navigation failure, capture failure, dead
driver), the session's queue ends as `rest ++ [tab]`. -/
theorem processRequest_pool (env : Env) (m : Middleware) (url : String)
    (st : ProcState) (pid : Nat) (psess : Session) (tab : Handle)
    (rest : List Handle) (hp : m.tabPool = some pid)
    (hs : st.heap[pid]? = some psess) (hpool : psess.pool = tab :: rest) :
    ((processRequest env m url st).2.heap[pid]?).map Session.pool =
      some (rest ++ [tab]) := by
  rw [processRequest_eq env m url st pid psess tab rest hp hs hpool]
  dsimp only
  set st2 := (trySection env m.driver tab url (st.setPool pid rest)).2 with hst2
  have h1 : (st.setPool pid rest).heap[pid]? =
      some { psess with pool := rest } := heap_get_setPool st pid rest psess hs
  have h2 := trySection_pool env m.driver tab url (st.setPool pid rest) pid
  rw [h1, ← hst2] at h2
  cases hs2 : st2.heap[pid]? with
  | none => rw [hs2] at h2; simp at h2
  | some s2 =>
      rw [heap_get_setPool st2 pid (rest ++ [tab]) s2 hs2]
      rfl

/-- Whenever the `try:` body returns a response, its `meta` names the
instance's driver and exactly the tab that was dequeued. -/
theorem trySection_fst (env : Env) (didx : Nat) (tab : Handle) (url : String)
    (st : ProcState) (u b : String) (md : Nat) (mt : Handle)
    (hres : (trySection env didx tab url st).1 =
      PRResult.response u b md mt) : md = didx ∧ mt = tab := by
  unfold trySection at hres
  repeat' split at hres
  all_goals simp only [Prod.fst] at hres
  all_goals simp at hres
  obtain ⟨h1, h2, h3, h4⟩ := hres
  exact ⟨h3.symm, h4.symm⟩

/-- Issuing the `try:` body against a quit driver: the switch command is
attempted on (and logged by) the dead driver object, which raises
`invalidSession`. -/
theorem trySection_closed (env : Env) (didx : Nat) (tab : Handle)
    (url : String) (st : ProcState) (ddr : Driver)
    (hd : (st.heap[didx]?).map Session.driver = some ddr)
    (hc : ddr.closed = true) :
    (trySection env didx tab url st).1 =
      PRResult.raised DriverError.invalidSession ∧
    ((trySection env didx tab url st).2.heap[didx]?).map Session.driver =
      some { ddr with log := ddr.log ++ [DriverCmd.switchTo tab] } := by
  cases hds : st.heap[didx]? with
  | none => rw [hds] at hd; simp at hd
  | some dsess =>
      rw [hds] at hd
      simp only [Option.map_some', Option.some_inj] at hd
      unfold trySection
      rw [hds]
      dsimp only
      have hsw : dsess.driver.doSwitch env tab =
          ({ dsess.driver with
              log := dsess.driver.log ++ [DriverCmd.switchTo tab] },
           some DriverError.invalidSession) := by
        rw [hd]
        simp [Driver.doSwitch, hc]
      rw [hsw]
      dsimp only
      refine ⟨rfl, ?_⟩
      rw [heap_get_setDriver_self st didx _ dsess hds]
      rw [hd]
      rfl

/-- A sequence of `SeleniumMiddleware` constructions within one process
(each call atomic under `_GLOBAL_LOCK`, so any concurrent schedule is one
of these serial orders), collecting the instances it returns. -/
def runAcquires (cfgs : List (String × Nat)) (st : ProcState) :
    List Middleware × ProcState :=
  match cfgs with
  | [] => ([], st)
  | c :: cs =>
      let (m, st1) := acquireOrCreate c.1 c.2 st
      let (ms, st2) := runAcquires cs st1
      (m :: ms, st2)

/-- The reuse branch of `__init__` (lines 86–98): when `_GLOBAL_DRIVER` is
set, the instance copies the three globals and the global instance lock,
and the process state is untouched. -/
theorem acquireOrCreate_reuse (b : String) (n : Nat) (st : ProcState)
    (sid : Nat) (h : st.gDriver = some sid) :
    acquireOrCreate b n st =
      (⟨sid, st.gPool, st.gMaxTabs, GLOBAL_INSTANCE_LOCK⟩, st) := by
  unfold acquireOrCreate
  rw [h]

/-- Iterating constructions over a state that already holds a session:
every call returns the same handle and the state never changes. -/
theorem runAcquires_reuse (cfgs : List (String × Nat)) (st : ProcState)
    (sid : Nat) (h : st.gDriver = some sid) :
    runAcquires cfgs st =
      (cfgs.map (fun _ =>
        (⟨sid, st.gPool, st.gMaxTabs, GLOBAL_INSTANCE_LOCK⟩ : Middleware)),
       st) := by
  induction cfgs with
  | nil => rfl
  | cons c cs ih =>
      unfold runAcquires
      rw [acquireOrCreate_reuse c.1 c.2 st sid h]
      dsimp only
      rw [ih]
      rfl

/-- After `spider_closed`, `_GLOBAL_DRIVER` is always `None` (either it was
already, or the call just reset it). -/
theorem spiderClosed_gDriver (st : ProcState) :
    (spiderClosed st).gDriver = none := by
  unfold spiderClosed
  cases h : st.gDriver with
  | none => exact h
  | some sid =>
      cases st.heap[sid]? <;> rfl

/-- `spider_closed` never adds or removes session objects from the heap. -/
theorem spiderClosed_heap_length (st : ProcState) :
    (spiderClosed st).heap.length = st.heap.length := by
  cases h : st.gDriver with
  | none => simp only [spiderClosed, h]
  | some sid =>
      simp only [spiderClosed, h]
      cases h2 : st.heap[sid]? with
      | none => rfl
      | some s =>
          simp only [ProcState.setSession]
          exact List.length_set st.heap sid _

/-! ## Invariants of the interleaved acquire/release system -/

/-- Every reachable pool state is a permutation split of the session's
original handle list: the queue contents plus the checked-out tabs are
exactly the handles `0, …, N-1`, each once. -/
theorem dreach_perm (N : Nat) (hN : 1 ≤ N) {s : DispatchState}
    (hs : DReach N s) :
    (s.pool ++ s.checkedOut.map Prod.snd).Perm (List.range N) := by
  induction hs with
  | init => simp [createSession_pool N hN]
  | step hr hstep ih =>
      cases hstep with
      | acquire r tab rest hpool hrr =>
          rw [hpool] at ih
          refine List.Perm.trans ?_ ih
          dsimp only
          simp only [List.map_append, List.map_cons, List.map_nil]
          rw [← List.append_assoc]
          exact List.perm_append_singleton tab _
      | release r tab l1 l2 hco =>
          rw [hco] at ih
          refine List.Perm.trans ?_ ih
          dsimp only
          simp only [List.map_append, List.map_cons]
          rw [List.append_assoc]
          refine List.Perm.append_left _ ?_
          rw [List.singleton_append]
          exact List.perm_middle.symm

/-- In a ledger whose tab components are pairwise distinct, a tab
determines the request holding it. -/
theorem snd_nodup_unique {co : List (Nat × Handle)}
    (hn : (co.map Prod.snd).Nodup) {r r' : Nat} {h : Handle}
    (h1 : (r, h) ∈ co) (h2 : (r', h) ∈ co) : r = r' := by
  induction co with
  | nil => cases h1
  | cons p tl ih =>
      simp only [List.map_cons, List.nodup_cons] at hn
      rcases List.mem_cons.mp h1 with h1 | h1 <;>
        rcases List.mem_cons.mp h2 with h2 | h2
      · rw [← h2] at h1
        exact (Prod.mk.injEq _ _ _ _).mp h1 |>.1
      · exfalso
        refine hn.1 ?_
        have hm : h ∈ List.map Prod.snd tl := List.mem_map_of_mem Prod.snd h2
        rw [← h1]
        exact hm
      · exfalso
        refine hn.1 ?_
        have hm : h ∈ List.map Prod.snd tl := List.mem_map_of_mem Prod.snd h1
        rw [← h2]
        exact hm
      · exact ih hn.2 h1 h2

/-- `spider_closed` on a state with no live session is a no-op (the
`else` branch of line 298 only logs). -/
theorem spiderClosed_none (st : ProcState) (h : st.gDriver = none) :
    spiderClosed st = st := by
  unfold spiderClosed
  rw [h]

/-- Whenever a dispatch returns a response under the standing pool
hypotheses, its `meta` tab handle is exactly the dequeued tab and its
`meta` driver is the instance's driver. -/
theorem processRequest_response (env : Env) (m : Middleware) (url : String)
    (st : ProcState) (pid : Nat) (psess : Session) (tab : Handle)
    (rest : List Handle) (u b : String) (md : Nat) (mt : Handle)
    (hp : m.tabPool = some pid) (hs : st.heap[pid]? = some psess)
    (hpool : psess.pool = tab :: rest)
    (hres : (processRequest env m url st).1 = PRResult.response u b md mt) :
    md = m.driver ∧ mt = tab := by
  rw [processRequest_eq env m url st pid psess tab rest hp hs hpool] at hres
  exact trySection_fst env m.driver tab url (st.setPool pid rest) u b md mt
    hres

/-! ## Claim theorems -/

/-- C6: on BrowserSession creation with configured tab count `N ≥ 1`, after
recording the initially-open tab, opening `N - 1` new tabs, and enumerating
the driver's open handles, the TabPool contains exactly `N` tab identifiers
and all identifiers in it are distinct. -/
theorem C6_tabpool_size_and_distinct (n : Nat) (h : 1 ≤ n) :
    (createSession n).pool.length = n ∧ (createSession n).pool.Nodup := by
  rw [createSession_pool n h]
  exact ⟨List.length_range n, List.nodup_range n⟩

theorem C6_tabpool_size_and_distinct_witness :
    1 ≤ 4 ∧
    ((createSession 4).pool.length = 4 ∧ (createSession 4).pool.Nodup) :=
  ⟨by decide, C6_tabpool_size_and_distinct 4 (by decide)⟩

/-- C5: an `acquire_or_create` (`SeleniumMiddleware.__init__`) call made
while a live BrowserSession exists ignores its `browser`/`max_tabs`
arguments (the result does not depend on them), leaves the process state —
hence the existing session's driver, tab pool and tab count — unchanged,
and returns a handle to the existing session with the original
`_GLOBAL_MAX_TABS`. -/
theorem C5_reuse_ignores_arguments (st : ProcState) (sid : Nat)
    (b b2 : String) (n n2 : Nat) (h : st.gDriver = some sid) :
    acquireOrCreate b n st = acquireOrCreate b2 n2 st ∧
    (acquireOrCreate b n st).2 = st ∧
    (acquireOrCreate b n st).1.driver = sid ∧
    (acquireOrCreate b n st).1.tabPool = st.gPool ∧
    (acquireOrCreate b n st).1.maxTabs = st.gMaxTabs := by
  rw [acquireOrCreate_reuse b n st sid h,
    acquireOrCreate_reuse b2 n2 st sid h]
  exact ⟨rfl, rfl, rfl, rfl, rfl⟩

/-- Process state after one construction with `max_tabs = 4`. -/
def c5st : ProcState := (acquireOrCreate "firefox" 4 ProcState.init).2

theorem C5_reuse_ignores_arguments_witness :
    c5st.gDriver = some 0 ∧
    (acquireOrCreate "chrome" 8 c5st = acquireOrCreate "firefox" 2 c5st ∧
     (acquireOrCreate "chrome" 8 c5st).2 = c5st ∧
     (acquireOrCreate "chrome" 8 c5st).1.driver = 0 ∧
     (acquireOrCreate "chrome" 8 c5st).1.tabPool = c5st.gPool ∧
     (acquireOrCreate "chrome" 8 c5st).1.maxTabs = c5st.gMaxTabs) :=
  ⟨rfl, C5_reuse_ignores_arguments c5st 0 "chrome" "firefox" 8 2 rfl⟩

/-- C9: a `release` (`spider_closed`) call made while a live BrowserSession
exists terminates the underlying driver (the `quit` command is issued and
the driver object is closed) and clears all three process-wide globals —
session reference, tab pool, tab count — back to `None`. -/
theorem C9_release_terminates_and_clears (st : ProcState) (sid : Nat)
    (s : Session) (hg : st.gDriver = some sid)
    (hs : st.heap[sid]? = some s) :
    ((spiderClosed st).heap[sid]?).map (fun x => x.driver.closed) =
      some true ∧
    ((spiderClosed st).heap[sid]?).map (fun x => x.driver.log) =
      some (s.driver.log ++ [DriverCmd.quit]) ∧
    (spiderClosed st).gDriver = none ∧
    (spiderClosed st).gPool = none ∧
    (spiderClosed st).gMaxTabs = none := by
  have hlen : sid < st.heap.length := (List.getElem?_eq_some.mp hs).1
  simp only [spiderClosed, hg, hs, ProcState.setSession]
  refine ⟨?_, ?_, by trivial, by trivial, by trivial⟩
  · rw [List.getElem?_set_eq_of_lt _ hlen]
    rfl
  · rw [List.getElem?_set_eq_of_lt _ hlen]
    rfl

/-- Process state after one construction with `max_tabs = 2`. -/
def c9st : ProcState := (acquireOrCreate "firefox" 2 ProcState.init).2

theorem C9_release_terminates_and_clears_witness :
    c9st.gDriver = some 0 ∧ c9st.heap[0]? = some (createSession 2) ∧
    (((spiderClosed c9st).heap[0]?).map (fun x => x.driver.closed) =
       some true ∧
     ((spiderClosed c9st).heap[0]?).map (fun x => x.driver.log) =
       some ((createSession 2).driver.log ++ [DriverCmd.quit]) ∧
     (spiderClosed c9st).gDriver = none ∧
     (spiderClosed c9st).gPool = none ∧
     (spiderClosed c9st).gMaxTabs = none) :=
  ⟨rfl, rfl, C9_release_terminates_and_clears c9st 0 (createSession 2)
    rfl rfl⟩

/-- C1: for every sequence of `SeleniumMiddleware` constructions within one
process (concurrent calls are serialized by `_GLOBAL_LOCK`, so every
schedule is one of these sequences), exactly one BrowserSession is
constructed — the heap, which records every construction, has length 1 —
and every call returns a handle to the same session (heap index 0), the
same pool (heap index 0), and the same `_GLOBAL_INSTANCE_LOCK` as the
first. -/
theorem C1_process_singleton (cfgs : List (String × Nat)) (hne : cfgs ≠ []) :
    (runAcquires cfgs ProcState.init).2.heap.length = 1 ∧
    ∀ m ∈ (runAcquires cfgs ProcState.init).1,
      m.driver = 0 ∧ m.tabPool = some 0 ∧ m.lock = GLOBAL_INSTANCE_LOCK := by
  cases cfgs with
  | nil => exact absurd rfl hne
  | cons c cs =>
      unfold runAcquires
      have hfirst : acquireOrCreate c.1 c.2 ProcState.init =
          (⟨0, some 0, some c.2, GLOBAL_INSTANCE_LOCK⟩,
           { heap := [createSession c.2], gDriver := some 0,
             gPool := some 0, gMaxTabs := some c.2 }) := rfl
      rw [hfirst]
      dsimp only
      rw [runAcquires_reuse cs _ 0 rfl]
      constructor
      · rfl
      · intro m hm
        rcases List.mem_cons.mp hm with rfl | hm2
        · exact ⟨rfl, rfl, rfl⟩
        · obtain ⟨x, -, rfl⟩ := List.mem_map.mp hm2
          exact ⟨rfl, rfl, rfl⟩

theorem C1_process_singleton_witness :
    ([("firefox", 4), ("chrome", 8)] : List (String × Nat)) ≠ [] ∧
    ((runAcquires [("firefox", 4), ("chrome", 8)]
        ProcState.init).2.heap.length = 1 ∧
     ∀ m ∈ (runAcquires [("firefox", 4), ("chrome", 8)] ProcState.init).1,
       m.driver = 0 ∧ m.tabPool = some 0 ∧ m.lock = GLOBAL_INSTANCE_LOCK) :=
  ⟨by simp, C1_process_singleton _ (by simp)⟩

/-- C8 (amended): a destroyed session is not terminal.  After any
`spider_closed`, the process-wide state holds no live session, so the next
`SeleniumMiddleware` construction takes the create branch: it constructs a
fresh BrowserSession (the heap grows by one), returns a handle to the new
session, and publishes it in the globals. -/
theorem C8_amended_recreated_after_release (st : ProcState) (b : String)
    (n : Nat) :
    (acquireOrCreate b n (spiderClosed st)).2.heap.length =
      st.heap.length + 1 ∧
    (acquireOrCreate b n (spiderClosed st)).1.driver = st.heap.length ∧
    (acquireOrCreate b n (spiderClosed st)).2.gDriver =
      some st.heap.length ∧
    (acquireOrCreate b n (spiderClosed st)).2.heap[st.heap.length]? =
      some (createSession n) := by
  have hd := spiderClosed_gDriver st
  have hl := spiderClosed_heap_length st
  unfold acquireOrCreate
  rw [hd]
  dsimp only
  refine ⟨?_, hl, ?_, ?_⟩
  · simp [hl]
  · rw [hl]
  · rw [← hl]
    exact List.getElem?_concat_length _ _

/-- The concrete run create → release → create within one process. -/
def c8run : ProcState :=
  (acquireOrCreate "firefox" 2
    (spiderClosed (acquireOrCreate "firefox" 2 ProcState.init).2)).2

/-- C8 counterexample: after the first session is destroyed by
`spider_closed`, a further `SeleniumMiddleware` construction in the same
process constructs a second BrowserSession — two sessions appear in the
heap and the globals now reference the new one — refuting "never recreated
after destruction within the same process". -/
theorem C8_counterexample_second_session :
    c8run.heap.length = 2 ∧ c8run.gDriver = some 1 :=
  ⟨rfl, rfl⟩

/-- C2: for every valid interleaving of the dispatcher's acquire
(`tab_pool.get()`) and release (`tab_pool.put(tab_handle)`) operations on a
session with tab count `N ≥ 1`, at every instant the number of identifiers
in the pool plus the number checked out equals `N`; an identifier in the
pool is checked out to no request; every one of the session's `N`
identifiers is in the pool or checked out; and an identifier is checked out
to at most one request. -/
theorem C2_pool_conservation (N : Nat) (s : DispatchState) (hN : 1 ≤ N)
    (hs : DReach N s) :
    s.pool.length + s.checkedOut.length = N ∧
    (∀ h r, h ∈ s.pool → (r, h) ∉ s.checkedOut) ∧
    (∀ h, h < N → h ∈ s.pool ∨ ∃ r, (r, h) ∈ s.checkedOut) ∧
    (∀ r r2 h, (r, h) ∈ s.checkedOut → (r2, h) ∈ s.checkedOut → r = r2) := by
  have hperm := dreach_perm N hN hs
  have hnd : (s.pool ++ s.checkedOut.map Prod.snd).Nodup :=
    hperm.nodup_iff.mpr (List.nodup_range N)
  obtain ⟨hnp, hnm, hdisj⟩ := List.nodup_append.mp hnd
  refine ⟨?_, ?_, ?_, ?_⟩
  · have hlen := hperm.length_eq
    simp only [List.length_append, List.length_map,
      List.length_range] at hlen
    exact hlen
  · intro h r hpl hc
    have hm2 : h ∈ s.checkedOut.map Prod.snd :=
      List.mem_map_of_mem Prod.snd hc
    exact hdisj hpl hm2
  · intro h hlt
    have hmem : h ∈ s.pool ++ s.checkedOut.map Prod.snd :=
      hperm.mem_iff.mpr (List.mem_range.mpr hlt)
    rcases List.mem_append.mp hmem with hmem | hmem
    · exact Or.inl hmem
    · obtain ⟨p, hin, hsnd⟩ := List.mem_map.mp hmem
      refine Or.inr ⟨p.1, ?_⟩
      have hpeq : p = (p.1, h) := by
        rw [← hsnd]
      rw [hpeq] at hin
      exact hin
  · intro r r2 h h1 h2
    exact snd_nodup_unique hnm h1 h2

theorem C2_pool_conservation_witness :
    1 ≤ 1 ∧
    ((createSession 1).pool.length + ([] : List (Nat × Handle)).length = 1 ∧
     (∀ h r, h ∈ (createSession 1).pool →
        (r, h) ∉ ([] : List (Nat × Handle))) ∧
     (∀ h, h < 1 → h ∈ (createSession 1).pool ∨
        ∃ r, (r, h) ∈ ([] : List (Nat × Handle))) ∧
     (∀ r r2 h, (r, h) ∈ ([] : List (Nat × Handle)) →
        (r2, h) ∈ ([] : List (Nat × Handle)) → r = r2)) :=
  ⟨le_refl 1,
   C2_pool_conservation 1 ⟨(createSession 1).pool, []⟩ (le_refl 1)
     DReach.init⟩

/-- C4: in every reachable interleaving state of concurrent dispatch calls
on a session with tab count `N ≥ 1`, no two in-flight requests hold the
same tab identifier: if requests `r` and `r2` have both checked out tab
`h`, they are the same request. -/
theorem C4_exclusive_ownership (N : Nat) (s : DispatchState) (hN : 1 ≤ N)
    (hs : DReach N s) (r r2 : Nat) (h : Handle)
    (h1 : (r, h) ∈ s.checkedOut) (h2 : (r2, h) ∈ s.checkedOut) : r = r2 := by
  have hperm := dreach_perm N hN hs
  have hnd : (s.pool ++ s.checkedOut.map Prod.snd).Nodup :=
    hperm.nodup_iff.mpr (List.nodup_range N)
  exact snd_nodup_unique (List.nodup_append.mp hnd).2.1 h1 h2

theorem C4_exclusive_ownership_witness :
    DReach 1 ⟨[], [(0, 0)]⟩ ∧ (0 : Nat) = 0 :=
  have hstep : DReach 1 ⟨[], [(0, 0)]⟩ :=
    DReach.step DReach.init (DStep.acquire _ 0 0 [] rfl (by simp))
  ⟨hstep,
   C4_exclusive_ownership 1 ⟨[], [(0, 0)]⟩ (le_refl 1) hstep 0 0 0
     (by simp) (by simp)⟩

/-- C3: for every dispatch (`process_request`) call on a non-empty pool, on
every exit path — the `env` parameter ranges over all outcomes of the tab
switch, the navigation, and the content capture, failing or not, and the
driver may even be dead — the `finally:` block has returned the acquired
tab identifier to the queue before the call completes: the session's pool
ends as the remaining queue with the dequeued tab re-appended. -/
theorem C3_tab_returned_on_every_exit (env : Env) (m : Middleware)
    (url : String) (st : ProcState) (pid : Nat) (psess : Session)
    (tab : Handle) (rest : List Handle) (hp : m.tabPool = some pid)
    (hs : st.heap[pid]? = some psess) (hpool : psess.pool = tab :: rest) :
    ((processRequest env m url st).2.heap[pid]?).map Session.pool =
      some (rest ++ [tab]) :=
  processRequest_pool env m url st pid psess tab rest hp hs hpool

/-- An `Env` whose navigation step fails (`driver.get` raises). -/
def envNavFail : Env := { Env.ok with navFails := true }

/-- Process state and instance after one construction with `max_tabs = 2`,
shared by the dispatch witnesses. -/
def c3st : ProcState := (acquireOrCreate "firefox" 2 ProcState.init).2

/-- The middleware instance returned by that construction. -/
def c3m : Middleware := (acquireOrCreate "firefox" 2 ProcState.init).1

theorem C3_tab_returned_on_every_exit_witness :
    c3m.tabPool = some 0 ∧ c3st.heap[0]? = some (createSession 2) ∧
    (createSession 2).pool = 0 :: [1] ∧
    ((processRequest envNavFail c3m "http://u" c3st).2.heap[0]?).map
        Session.pool = some ([1] ++ [0]) :=
  ⟨rfl, rfl, rfl,
   C3_tab_returned_on_every_exit envNavFail c3m "http://u" c3st 0
     (createSession 2) 0 [1] rfl rfl rfl⟩

/-- C10: for every successful dispatch, at the moment the call returns its
response the tab identifier in the response's `meta['tab_handle']` has
already been put back into the queue by the `finally:` block: it is a
member of the session's pool in the returned state, available to any
concurrent request. -/
theorem C10_response_tab_already_in_pool (env : Env) (m : Middleware)
    (url : String) (st : ProcState) (pid : Nat) (psess : Session)
    (tab : Handle) (rest : List Handle) (u b : String) (md : Nat)
    (mt : Handle) (hp : m.tabPool = some pid)
    (hs : st.heap[pid]? = some psess) (hpool : psess.pool = tab :: rest)
    (hres : (processRequest env m url st).1 = PRResult.response u b md mt) :
    ∃ p, ((processRequest env m url st).2.heap[pid]?).map Session.pool =
        some p ∧ mt ∈ p := by
  obtain ⟨-, rfl⟩ := processRequest_response env m url st pid psess tab rest
    u b md mt hp hs hpool hres
  exact ⟨rest ++ [mt],
    processRequest_pool env m url st pid psess mt rest hp hs hpool,
    by simp⟩

theorem C10_response_tab_already_in_pool_witness :
    (processRequest Env.ok c3m "http://u" c3st).1 =
      PRResult.response "http://example.com/" "<html></html>" 0 0 ∧
    ∃ p, ((processRequest Env.ok c3m "http://u" c3st).2.heap[0]?).map
        Session.pool = some p ∧ 0 ∈ p :=
  ⟨rfl,
   C10_response_tab_already_in_pool Env.ok c3m "http://u" c3st 0
     (createSession 2) 0 [1] "http://example.com/" "<html></html>" 0 0
     rfl rfl rfl rfl⟩

/-- C7 (amended): calling `spider_closed` twice in a row does not raise and
the second call is a no-op on process-wide state; but a dispatch
(`process_request`) made after release does not fail fast with a
`SessionClosed` check — no such check or error exists in the code.  It
dequeues a tab from the queue the instance still references, attempts the
switch command on the quit driver (the attempt is recorded on the dead
driver object), and the driver-level invalid-session error propagates,
with the tab still returned to the pool by `finally:`. -/
theorem C7_amended_teardown (st0 st : ProcState) (env : Env)
    (m : Middleware) (url : String) (pid : Nat) (psess : Session)
    (tab : Handle) (rest : List Handle) (ddr : Driver)
    (hp : m.tabPool = some pid) (hs : st.heap[pid]? = some psess)
    (hpool : psess.pool = tab :: rest)
    (hd : (st.heap[m.driver]?).map Session.driver = some ddr)
    (hc : ddr.closed = true) :
    spiderClosed (spiderClosed st0) = spiderClosed st0 ∧
    (processRequest env m url st).1 =
      PRResult.raised DriverError.invalidSession ∧
    ((processRequest env m url st).2.heap[m.driver]?).map Session.driver =
      some { ddr with log := ddr.log ++ [DriverCmd.switchTo tab] } ∧
    ((processRequest env m url st).2.heap[pid]?).map Session.pool =
      some (rest ++ [tab]) := by
  have h1 : spiderClosed (spiderClosed st0) = spiderClosed st0 :=
    spiderClosed_none _ (spiderClosed_gDriver st0)
  have hdst1 : ((st.setPool pid rest).heap[m.driver]?).map Session.driver =
      some ddr := by
    rw [heap_driver_setPool]
    exact hd
  obtain ⟨hres1, hdafter⟩ :=
    trySection_closed env m.driver tab url (st.setPool pid rest) ddr
      hdst1 hc
  have hpl := processRequest_pool env m url st pid psess tab rest hp hs hpool
  rw [processRequest_eq env m url st pid psess tab rest hp hs hpool]
    at hpl ⊢
  refine ⟨h1, hres1, ?_, hpl⟩
  rw [heap_driver_setPool]
  exact hdafter

/-- Process state after construct (1 tab) then release: the globals are
cleared, the session object survives with a quit driver and its queue
still holding handle 0. -/
def c7st : ProcState :=
  spiderClosed (acquireOrCreate "firefox" 1 ProcState.init).2

/-- The instance constructed before the release; it still references the
session at heap index 0. -/
def c7m : Middleware := (acquireOrCreate "firefox" 1 ProcState.init).1

/-- The session object as it stands after the release. -/
def c7sess : Session :=
  { createSession 1 with driver := (createSession 1).driver.doQuit }

theorem C7_amended_teardown_witness :
    c7m.tabPool = some 0 ∧ c7st.heap[0]? = some c7sess ∧
    c7sess.pool = 0 :: [] ∧ c7sess.driver.closed = true ∧
    (spiderClosed (spiderClosed ProcState.init) =
       spiderClosed ProcState.init ∧
     (processRequest Env.ok c7m "http://u" c7st).1 =
       PRResult.raised DriverError.invalidSession ∧
     ((processRequest Env.ok c7m "http://u" c7st).2.heap[c7m.driver]?).map
         Session.driver =
       some { c7sess.driver with
                log := c7sess.driver.log ++ [DriverCmd.switchTo 0] } ∧
     ((processRequest Env.ok c7m "http://u" c7st).2.heap[0]?).map
         Session.pool = some ([] ++ [0])) :=
  ⟨rfl, rfl, rfl, rfl,
   C7_amended_teardown ProcState.init c7st Env.ok c7m "http://u" 0 c7sess
     0 [] c7sess.driver rfl rfl rfl rfl rfl⟩

/-- C7 counterexample: the claim's second half fails on the code.  In the
concrete run construct → release, the driver object at heap index 0 has
been quit (its log is `[quit]`); the subsequent `process_request` does not
fail fast with a `SessionClosed` error: it attempts the switch command on
the quit driver — the dead driver's log grows to `[quit, switchTo 0]` —
and what propagates is the driver's own invalid-session error raised from
that attempted use. -/
theorem C7_counterexample_uses_dead_driver :
    ((c7st.heap[0]?).map (fun s => s.driver.log)) =
      some [DriverCmd.quit] ∧
    (processRequest Env.ok c7m "http://u" c7st).1 =
      PRResult.raised DriverError.invalidSession ∧
    (((processRequest Env.ok c7m "http://u" c7st).2.heap[0]?).map
        (fun s => s.driver.log)) =
      some [DriverCmd.quit, DriverCmd.switchTo 0] :=
  ⟨rfl, rfl, rfl⟩
